import Mathlib

/-!
Shallow embedding of the Cloud Racing simulation core (src/src/App.js).

Numbers are modelled as real numbers.  The stateful React refs become an
explicit `GameState` record; the per-frame `update(dt)` becomes a pure
function from a state, a clamped delta-time, a resolved input intent and
the tick's random draws to a new state plus a tick result.  Randomness is
passed in as the raw uniform draws (`Math.random()` values) consumed by a
tick, mirroring the call sites in `update` and `spawnObstacle`.
-/

namespace CloudRacing

/-- WIDTH constant of App.js (virtual field width). -/
def WIDTH : ℝ := 800

/-- HEIGHT constant of App.js (virtual field height). -/
def HEIGHT : ℝ := 500

/-- CLOUD_RADIUS constant of App.js (the player's collision radius). -/
def CLOUD_RADIUS : ℝ := 20

/-- PLAYER_SPEED constant of App.js (px/sec). -/
def PLAYER_SPEED : ℝ := 260

/-- BASE_SCROLL_SPEED constant of App.js (px/sec baseline). -/
def BASE_SCROLL_SPEED : ℝ := 200

/-- Difficulty setting (`difficultyRef`): easy, medium or hard. -/
inductive Difficulty
  | easy
  | medium
  | hard
deriving DecidableEq

/-- Round phase.  The source keeps `gameState ∈ \x7bmenu, playing\x7d` together
with a `gameOver` flag; after a collision it sets `gameOver = true` and
`gameState = menu`.  We collapse the pair: `menu` is (menu, false),
`playing` is (playing, false), `gameOver` is (menu, true). -/
inductive Phase
  | menu
  | playing
  | gameOver
deriving DecidableEq

/-- Obstacle kind: asteroid or alien. -/
inductive ObKind
  | asteroid
  | alien
deriving DecidableEq

/-- Player state: just a position (`playerRef`). -/
structure Player where
  x : ℝ
  y : ℝ

/-- One obstacle of `obstaclesRef`.  Asteroids in the source carry no
`wobblePhase`/`life` field; here the fields are simply unused for them. -/
structure Obstacle where
  kind : ObKind
  x : ℝ
  y : ℝ
  radius : ℝ
  speed : ℝ
  wobblePhase : ℝ
  life : ℝ
  scored : Bool

/-- Resolved input intent for one tick: the held movement keys
(`keysRef`, already reduced to the four directions) and the pointer
state (`pointerRef`). -/
structure Intent where
  up : Bool
  down : Bool
  left : Bool
  right : Bool
  pointerActive : Bool
  pointerX : ℝ
  pointerY : ℝ

/-- The raw uniform `Math.random()` draws a tick may consume, one field per
call site: the speed jitter in `update` and the `rand(...)` calls in
`spawnObstacle`, for each kind. -/
structure Rand where
  astJitter : ℝ
  astY : ℝ
  astRadius : ℝ
  astSpeedScale : ℝ
  aliJitter : ℝ
  aliY : ℝ
  aliRadius : ℝ
  aliSpeedScale : ℝ
  aliWobble : ℝ

/-- The whole mutable simulation state of App.js: player, obstacles,
fractional score accumulator (`scoreRef`), the two spawn timers in ms,
the difficulty and the phase. -/
structure GameState where
  player : Player
  obstacles : List Obstacle
  score : ℝ
  astMs : ℝ
  aliMs : ℝ
  difficulty : Difficulty
  phase : Phase

/-- Result of one tick: either the round continues or a collision ended it,
carrying the floored final score (`Math.floor(scoreRef.current)`). -/
inductive TickResult
  | continued
  | collided (finalScore : ℤ)
deriving DecidableEq

/-- rand(min, max) of App.js applied to a raw uniform draw r:
`r * (max - min) + min`. -/
def randIn (r lo hi : ℝ) : ℝ := r * (hi - lo) + lo

/-- Initial state: player at (120, HEIGHT/2), nothing spawned, menu phase,
easy difficulty (the useState initialisers). -/
def initState : GameState :=
  { player := { x := 120, y := 250 }
    obstacles := []
    score := 0
    astMs := 0
    aliMs := 0
    difficulty := Difficulty.easy
    phase := Phase.menu }

/-- Player movement of `update` (lines 176-196): additive key movement,
then pointer-follow steering outside a 6-unit dead zone, then the clamp
into `[CLOUD_RADIUS, WIDTH-CLOUD_RADIUS] × [CLOUD_RADIUS, HEIGHT-CLOUD_RADIUS]`. -/
noncomputable def movePlayer (p : Player) (it : Intent) (dt : ℝ) : Player :=
  let vertical : ℝ := (if it.down then 1 else 0) - (if it.up then 1 else 0)
  let horizontal : ℝ := (if it.right then 1 else 0) - (if it.left then 1 else 0)
  let x1 := p.x + horizontal * PLAYER_SPEED * dt
  let y1 := p.y + vertical * PLAYER_SPEED * dt
  let moved :=
    if it.pointerActive then
      let dx := it.pointerX - x1
      let dy := it.pointerY - y1
      let d := Real.sqrt (dx ^ 2 + dy ^ 2)
      if 6 < d then (x1 + dx / d * PLAYER_SPEED * dt, y1 + dy / d * PLAYER_SPEED * dt)
      else (x1, y1)
    else (x1, y1)
  { x := max CLOUD_RADIUS (min (WIDTH - CLOUD_RADIUS) moved.1)
    y := max CLOUD_RADIUS (min (HEIGHT - CLOUD_RADIUS) moved.2) }

/-- Difficulty multiplier of `update` line 199. -/
def diffMult : Difficulty → ℝ
  | Difficulty.hard => 1.25
  | Difficulty.medium => 1.0
  | Difficulty.easy => 0.85

/-- Speed boost of `update` line 200: `min(260, (score/20)*9)`. -/
noncomputable def speedBoost (score : ℝ) : ℝ := min 260 (score / 20 * 9)

/-- Scroll speed of `update` line 201. -/
noncomputable def scrollSpeed (d : Difficulty) (score : ℝ) : ℝ :=
  BASE_SCROLL_SPEED * diffMult d + speedBoost score

/-- Base asteroid spawn interval by difficulty (`update` line 206). -/
def baseAst : Difficulty → ℝ
  | Difficulty.hard => 520
  | Difficulty.medium => 700
  | Difficulty.easy => 900

/-- Base alien spawn interval by difficulty (`update` line 207). -/
def baseAli : Difficulty → ℝ
  | Difficulty.hard => 800
  | Difficulty.medium => 1100
  | Difficulty.easy => 1400

/-- Asteroid spawn interval (`update` line 208):
`max(baseAst*0.55, baseAst - score*3.5)`. -/
noncomputable def astIntervalOf (d : Difficulty) (score : ℝ) : ℝ :=
  max (baseAst d * 0.55) (baseAst d - score * 3.5)

/-- Alien spawn interval (`update` line 209):
`max(baseAli*0.6, baseAli - score*3.8)`. -/
noncomputable def aliIntervalOf (d : Difficulty) (score : ℝ) : ℝ :=
  max (baseAli d * 0.6) (baseAli d - score * 3.8)

/-- The function spawnObstacle('asteroid', speed) (lines 260-268), with the random
draws made explicit.  The incoming speed already carries the ±10% jitter
applied at the call site. -/
noncomputable def mkAsteroid (speed : ℝ) (rnd : Rand) : Obstacle :=
  { kind := ObKind.asteroid
    x := WIDTH + 40
    y := randIn rnd.astY 40 (HEIGHT - 40)
    radius := randIn rnd.astRadius 14 28
    speed := speed * randIn rnd.astSpeedScale 0.95 1.25
    wobblePhase := 0
    life := 0
    scored := false }

/-- The function spawnObstacle('alien', speed) (lines 269-280). -/
noncomputable def mkAlien (speed : ℝ) (rnd : Rand) : Obstacle :=
  { kind := ObKind.alien
    x := WIDTH + 60
    y := randIn rnd.aliY 40 (HEIGHT - 40)
    radius := randIn rnd.aliRadius 18 26
    speed := speed * randIn rnd.aliSpeedScale 0.95 1.2
    wobblePhase := randIn rnd.aliWobble 0 (2 * Real.pi)
    life := 0
    scored := false }

/-- Spawn-timer section of `update` (lines 203-217): advance both timers
by `dt*1000`; whenever a timer has reached its interval, reset it to 0 and
append the new obstacle.  Returns the new timers and obstacle list. -/
noncomputable def spawnPhase (g : GameState) (dt : ℝ) (rnd : Rand) : ℝ × ℝ × List Obstacle :=
  let sc := scrollSpeed g.difficulty g.score
  let astMs := g.astMs + dt * 1000
  let aliMs := g.aliMs + dt * 1000
  let step1 :=
    if astIntervalOf g.difficulty g.score ≤ astMs then
      ((0 : ℝ), g.obstacles ++ [mkAsteroid (sc * (1.0 + (rnd.astJitter - 0.5) * 0.2)) rnd])
    else (astMs, g.obstacles)
  let step2 :=
    if aliIntervalOf g.difficulty g.score ≤ aliMs then
      ((0 : ℝ), step1.2 ++ [mkAlien (sc * 1.12 * (1.0 + (rnd.aliJitter - 0.5) * 0.2)) rnd])
    else (aliMs, step1.2)
  (step1.1, step2.1, step2.2)

/-- Advance one obstacle (lines 223-227): `x -= speed*dt`; aliens also
apply the vertical wobble computed from the current (pre-increment) `life`
and then advance `life += dt`. -/
noncomputable def advanceOb (o : Obstacle) (dt : ℝ) : Obstacle :=
  match o.kind with
  | ObKind.asteroid => { o with x := o.x - o.speed * dt }
  | ObKind.alien =>
      { o with
        x := o.x - o.speed * dt
        y := o.y + Real.sin ((o.life * 2 + o.wobblePhase) * 2.2) * 40 * dt
        life := o.life + dt }

/-- Score increment per obstacle kind (line 231): 8 for alien, 5 for asteroid. -/
def scoreVal : ObKind → ℝ
  | ObKind.alien => 8
  | ObKind.asteroid => 5

/-- Pass-scoring step (lines 229-233) on an already-advanced obstacle:
when not yet scored and `x + radius < player.x - CLOUD_RADIUS*0.2`, flag it
and add the kind's value to the score. -/
noncomputable def scoreStep (p : Player) (o : Obstacle) (s : ℝ) : Obstacle × ℝ :=
  if o.scored = false ∧ o.x + o.radius < p.x - CLOUD_RADIUS * 0.2 then
    ({ o with scored := true }, s + scoreVal o.kind)
  else (o, s)

/-- Trailing-edge cull test (line 234): `x < -radius*2`. -/
noncomputable def cullB (o : Obstacle) : Bool := decide (o.x < -o.radius * 2)

/-- Distance between player and obstacle (line 239, `Math.hypot`). -/
noncomputable def dist (p : Player) (o : Obstacle) : ℝ :=
  Real.sqrt ((p.x - o.x) ^ 2 + (p.y - o.y) ^ 2)

/-- Collision test (line 240): `dist < CLOUD_RADIUS + radius*0.9`. -/
noncomputable def collideB (p : Player) (o : Obstacle) : Bool :=
  decide (dist p o < CLOUD_RADIUS + o.radius * 0.9)

/-- The obstacle loop of `update` (lines 221-252), faithful to the indexed
form `for (let i = obstacles.length - 1; i >= 0; i--)` with in-place
mutation of `obstacles[i]`, `splice(i, 1)` on cull, and an early return on
collision.  `loopIdx p dt (i+1) obs s` performs the iterations for indices
`i, i-1, ..., 0`; the Bool of the result tells whether a collision ended
the loop. -/
noncomputable def loopIdx (p : Player) (dt : ℝ) : ℕ → List Obstacle → ℝ → List Obstacle × ℝ × Bool
  | 0, obs, s => (obs, s, false)
  | i + 1, obs, s =>
      match obs[i]? with
      | none => loopIdx p dt i obs s
      | some o =>
          let o1 := advanceOb o dt
          let ss := scoreStep p o1 s
          if cullB ss.1 then loopIdx p dt i (obs.eraseIdx i) ss.2
          else if collideB p ss.1 then (obs.set i ss.1, ss.2, true)
          else loopIdx p dt i (obs.set i ss.1) ss.2

/-- The whole obstacle pass of a tick, started at the top index. -/
noncomputable def obstaclePass (p : Player) (dt : ℝ) (l : List Obstacle) (s : ℝ) :
    List Obstacle × ℝ × Bool :=
  loopIdx p dt l.length l s

/-- The function update(dt) of App.js as a pure function.  On collision the source
sets `gameOver = true` and `gameState = menu` (phase `gameOver` here) and
speaks the floored score; otherwise the round continues. -/
noncomputable def update (g : GameState) (dt : ℝ) (it : Intent) (rnd : Rand) :
    GameState × TickResult :=
  let p := movePlayer g.player it dt
  let sp := spawnPhase g dt rnd
  let pass := obstaclePass p dt sp.2.2 g.score
  if pass.2.2 then
    ({ g with
        player := p
        obstacles := pass.1
        score := pass.2.1
        astMs := sp.1
        aliMs := sp.2.1
        phase := Phase.gameOver },
      TickResult.collided ⌊pass.2.1⌋)
  else
    ({ g with
        player := p
        obstacles := pass.1
        score := pass.2.1
        astMs := sp.1
        aliMs := sp.2.1 },
      TickResult.continued)

/-- One frame of the driver loop (lines 91-101): `update` runs only while
`gameState === 'playing'`; in any other phase the simulation state is
untouched. -/
noncomputable def tick (g : GameState) (dt : ℝ) (it : Intent) (rnd : Rand) :
    GameState × TickResult :=
  if g.phase = Phase.playing then update g dt it rnd else (g, TickResult.continued)

/-- The function restart() (lines 147-156): clear obstacles, timers and score, reset
the player, clear the `gameOver` flag (phase `gameOver` collapses back to
`menu`); `gameState` and the difficulty are untouched. -/
def restartOp (g : GameState) : GameState :=
  { g with
      obstacles := []
      astMs := 0
      aliMs := 0
      score := 0
      player := { x := 120, y := 250 }
      phase := if g.phase = Phase.gameOver then Phase.menu else g.phase }

/-- The function startGame() (lines 158-170): `restart()` then `gameState = playing`. -/
def startGameOp (g : GameState) : GameState :=
  { restartOp g with phase := Phase.playing }

/-- The difficulty setter.  In the source `setDifficulty` is invoked only
from the difficulty buttons, which are rendered exactly when
`gameState === 'menu'` (line 513) — that is, in the `menu` and `gameOver`
phases; while playing it cannot fire. -/
def setDifficultyOp (g : GameState) (d : Difficulty) : GameState :=
  if g.phase = Phase.playing then g else { g with difficulty := d }

/-! Reference formulations of the obstacle pass, used to state structural
claims about the loop above. -/

/-- Per-obstacle pipeline on a list already in reverse spawn order
(newest first): advance, score-check, cull-check, collision-check, each on
the post-advance obstacle; on a collision the rest of the list is returned
untouched. -/
noncomputable def revPassAux (p : Player) (dt : ℝ) :
    List Obstacle → ℝ → List Obstacle × ℝ × Bool
  | [], s => ([], s, false)
  | o :: rest, s =>
      let ss := scoreStep p (advanceOb o dt) s
      if cullB ss.1 then revPassAux p dt rest ss.2
      else if collideB p ss.1 then (ss.1 :: rest, ss.2, true)
      else
        let r := revPassAux p dt rest ss.2
        (ss.1 :: r.1, r.2)

/-- The obstacle pass described as: reverse the spawn-order list, run the
per-obstacle pipeline newest-first, reverse the survivors back. -/
noncomputable def revPass (p : Player) (dt : ℝ) (l : List Obstacle) (s : ℝ) :
    List Obstacle × ℝ × Bool :=
  let r := revPassAux p dt l.reverse s
  (r.1.reverse, r.2)

/-- The obstacle pass as the specification words it: the same per-obstacle
pipeline, but processing the spawn-order list oldest-first. -/
noncomputable def spawnOrderPass (p : Player) (dt : ℝ) :
    List Obstacle → ℝ → List Obstacle × ℝ × Bool
  | [], s => ([], s, false)
  | o :: rest, s =>
      let ss := scoreStep p (advanceOb o dt) s
      if cullB ss.1 then spawnOrderPass p dt rest ss.2
      else if collideB p ss.1 then (ss.1 :: rest, ss.2, true)
      else
        let r := spawnOrderPass p dt rest ss.2
        (ss.1 :: r.1, r.2)

/-- Alien advance as the specification words it: first advance
`age += dt`, then apply the drift computed from the already-advanced age. -/
noncomputable def specAdvanceAlien (o : Obstacle) (dt : ℝ) : Obstacle :=
  let life1 := o.life + dt
  { o with
    x := o.x - o.speed * dt
    y := o.y + Real.sin ((life1 * 2 + o.wobblePhase) * 2.2) * 40 * dt
    life := life1 }

/-- The advanced-and-flagged form an obstacle has after its advance and
score-check within a tick (the score value itself does not influence it). -/
noncomputable def procOb (p : Player) (dt : ℝ) (o : Obstacle) : Obstacle :=
  (scoreStep p (advanceOb o dt) 0).1

/-- The score increment an obstacle contributes within a tick. -/
noncomputable def incOf (p : Player) (dt : ℝ) (o : Obstacle) : ℝ :=
  (scoreStep p (advanceOb o dt) 0).2

/-- The bounds the player must stay inside. -/
def inField (p : Player) : Prop :=
  CLOUD_RADIUS ≤ p.x ∧ p.x ≤ WIDTH - CLOUD_RADIUS ∧
    CLOUD_RADIUS ≤ p.y ∧ p.y ≤ HEIGHT - CLOUD_RADIUS

/-- The simulation states reachable through the exposed operations,
starting from the initial state. -/
inductive Reach : GameState → Prop
  | init : Reach initState
  | tickStep (g : GameState) (dt : ℝ) (it : Intent) (rnd : Rand) :
      Reach g → Reach (tick g dt it rnd).1
  | restartStep (g : GameState) : Reach g → Reach (restartOp g)
  | startStep (g : GameState) : Reach g → Reach (startGameOp g)
  | diffStep (g : GameState) (d : Difficulty) : Reach g → Reach (setDifficultyOp g d)

/-- The player at its initial column and mid-height. -/
def pRef : Player := { x := 120, y := 250 }

/-- An idle intent: no keys held, pointer inactive. -/
def it0 : Intent :=
  { up := false, down := false, left := false, right := false
    pointerActive := false, pointerX := 0, pointerY := 0 }

/-- Arbitrary random draws (irrelevant on ticks that spawn nothing). -/
def rnd0 : Rand :=
  { astJitter := 0, astY := 0, astRadius := 0, astSpeedScale := 0
    aliJitter := 0, aliY := 0, aliRadius := 0, aliSpeedScale := 0, aliWobble := 0 }

/-- An earlier-spawned asteroid about to pass-score: behind the player,
far enough not to collide. -/
def obA : Obstacle :=
  { kind := ObKind.asteroid, x := 80, y := 250, radius := 14, speed := 100
    wobblePhase := 0, life := 0, scored := false }

/-- A later-spawned asteroid overlapping the player. -/
def obB : Obstacle :=
  { kind := ObKind.asteroid, x := 130, y := 250, radius := 20, speed := 100
    wobblePhase := 0, life := 0, scored := false }

/-- A fresh alien used to separate the source's drift-then-age order from
the specification's age-then-drift order. -/
def obC : Obstacle :=
  { kind := ObKind.alien, x := 700, y := 100, radius := 20, speed := 0
    wobblePhase := 0, life := 0, scored := false }

/-- A surviving alien far from the player, for the C6 witness. -/
def obW : Obstacle :=
  { kind := ObKind.alien, x := 600, y := 100, radius := 20, speed := 0
    wobblePhase := 0, life := 0, scored := false }

/-- The state right before the collision tick of the C8 counterexample:
playing, one overlapping asteroid, nothing about to spawn. -/
def gB : GameState :=
  { player := pRef, obstacles := [obB], score := 0, astMs := 0, aliMs := 0
    difficulty := Difficulty.easy, phase := Phase.playing }

/-- A game-over state with the default difficulty, for the C9
counterexample. -/
def gOver : GameState := { initState with phase := Phase.gameOver }

/-- The asteroid of the C10 witness: it pass-scores and collides in the
same tick. -/
def obD : Obstacle :=
  { kind := ObKind.asteroid, x := 90, y := 250, radius := 20, speed := 100
    wobblePhase := 0, life := 0, scored := false }

/-! Helper lemmas about the indexed obstacle loop. -/

/-- Setting the final slot of a one-longer list. -/
theorem set_concat {α : Type} (l : List α) (a b : α) :
    (l ++ [a]).set l.length b = l ++ [b] := by
  induction l with
  | nil => rfl
  | cons x xs ih => simp [List.set, ih]

/-- Erasing the final slot of a one-longer list. -/
theorem eraseIdx_concat {α : Type} (l : List α) (a : α) :
    (l ++ [a]).eraseIdx l.length = l := by
  induction l with
  | nil => rfl
  | cons x xs ih => simpa [List.eraseIdx] using ih

/-- One unfolding of the loop when the current slot is occupied. -/
theorem loopIdx_succ (p : Player) (dt : ℝ) (i : ℕ) (obs : List Obstacle) (s : ℝ)
    (o : Obstacle) (h : obs[i]? = some o) :
    loopIdx p dt (i + 1) obs s =
      (let ss := scoreStep p (advanceOb o dt) s
       if cullB ss.1 then loopIdx p dt i (obs.eraseIdx i) ss.2
       else if collideB p ss.1 then (obs.set i ss.1, ss.2, true)
       else loopIdx p dt i (obs.set i ss.1) ss.2) := by
  rw [loopIdx, h]

/-- Frame property of the loop: iterating indices below `l.length` never
touches a suffix appended beyond them. -/
theorem loopIdx_append (p : Player) (dt : ℝ) :
    ∀ (i : ℕ) (l t : List Obstacle) (s : ℝ), i ≤ l.length →
      loopIdx p dt i (l ++ t) s =
        ((loopIdx p dt i l s).1 ++ t, (loopIdx p dt i l s).2) := by
  intro i
  induction i with
  | zero => intro l t s _; rfl
  | succ i ih =>
      intro l t s hi
      have hlt : i < l.length := hi
      obtain ⟨o, ho⟩ : ∃ o, l[i]? = some o :=
        ⟨l[i], List.getElem?_eq_getElem hlt⟩
      have ho' : (l ++ t)[i]? = some o := by
        rw [List.getElem?_append_left hlt, ho]
      rw [loopIdx_succ p dt i (l ++ t) s o ho', loopIdx_succ p dt i l s o ho]
      have hset : (l ++ t).set i (scoreStep p (advanceOb o dt) s).1 =
          l.set i (scoreStep p (advanceOb o dt) s).1 ++ t := by
        rw [List.set_append, if_pos hlt]
      cases hc : cullB (scoreStep p (advanceOb o dt) s).1 with
      | true =>
          simp only [hc, if_true]
          rw [List.eraseIdx_append_of_lt_length hlt]
          exact ih _ _ _ (by
            have := l.length_eraseIdx_of_lt hlt
            omega)
      | false =>
          simp only [hc, Bool.false_eq_true, if_false]
          cases hk : collideB p (scoreStep p (advanceOb o dt) s).1 with
          | true => simp only [hk, if_true, hset]
          | false =>
              simp only [hk, Bool.false_eq_true, if_false, hset]
              exact ih _ _ _ (by simpa using Nat.le_of_lt hlt)

/-- Processing a spawn-order list with one more, newest obstacle at the
end: that obstacle is handled first, then the loop continues on the older
prefix. -/
theorem loopIdx_concat (p : Player) (dt : ℝ) (l : List Obstacle) (o : Obstacle) (s : ℝ) :
    loopIdx p dt (l.length + 1) (l ++ [o]) s =
      (let ss := scoreStep p (advanceOb o dt) s
       if cullB ss.1 then loopIdx p dt l.length l ss.2
       else if collideB p ss.1 then (l ++ [ss.1], ss.2, true)
       else ((loopIdx p dt l.length l ss.2).1 ++ [ss.1], (loopIdx p dt l.length l ss.2).2)) := by
  rw [loopIdx_succ p dt l.length (l ++ [o]) s o (List.getElem?_concat_length l o)]
  cases hc : cullB (scoreStep p (advanceOb o dt) s).1 with
  | true => simp only [hc, if_true, eraseIdx_concat]
  | false =>
      simp only [hc, Bool.false_eq_true, if_false]
      cases hk : collideB p (scoreStep p (advanceOb o dt) s).1 with
      | true => simp only [hk, if_true, set_concat]
      | false =>
          simp only [hk, Bool.false_eq_true, if_false, set_concat]
          exact loopIdx_append p dt l.length l [(scoreStep p (advanceOb o dt) s).1] _ le_rfl

/-- The indexed loop of the source is exactly the reverse-spawn-order
per-obstacle pipeline. -/
theorem obstaclePass_eq_revPass (p : Player) (dt : ℝ) :
    ∀ (l : List Obstacle) (s : ℝ), obstaclePass p dt l s = revPass p dt l s := by
  intro l
  induction l using List.reverseRecOn with
  | nil => intro s; rfl
  | append_singleton l o ih =>
      intro s
      rw [obstaclePass, List.length_append, List.length_singleton, loopIdx_concat,
        revPass, List.reverse_append, List.reverse_singleton]
      simp only [List.singleton_append, List.nil_append, revPassAux]
      cases hc : cullB (scoreStep p (advanceOb o dt) s).1 with
      | true =>
          simp only [hc, if_true]
          have := ih (scoreStep p (advanceOb o dt) s).2
          rw [obstaclePass] at this
          rw [this, revPass]
          simp
      | false =>
          simp only [hc, Bool.false_eq_true, if_false]
          cases hk : collideB p (scoreStep p (advanceOb o dt) s).1 with
          | true => simp [hk]
          | false =>
              simp only [hk, Bool.false_eq_true, if_false, List.reverse_cons]
              have := ih (scoreStep p (advanceOb o dt) s).2
              rw [obstaclePass] at this
              rw [this, revPass]
              simp

/-! Helper lemmas about scoring and collisions. -/

/-- Each kind's score value is nonnegative. -/
theorem scoreVal_nonneg (k : ObKind) : 0 ≤ scoreVal k := by
  cases k <;> norm_num [scoreVal]

/-- The score-check decomposes into the flagged obstacle and a per-obstacle
increment that is independent of the running score. -/
theorem scoreStep_eq (p : Player) (dt : ℝ) (o : Obstacle) (s : ℝ) :
    scoreStep p (advanceOb o dt) s = (procOb p dt o, s + incOf p dt o) := by
  simp only [procOb, incOf, scoreStep]
  by_cases h : (advanceOb o dt).scored = false ∧
      (advanceOb o dt).x + (advanceOb o dt).radius < p.x - CLOUD_RADIUS * 0.2
  · simp only [if_pos h]
    norm_num
  · simp only [if_neg h]
    norm_num

/-- The score-check never decreases the score. -/
theorem scoreStep_le (p : Player) (o : Obstacle) (s : ℝ) : s ≤ (scoreStep p o s).2 := by
  rw [scoreStep]
  by_cases h : o.scored = false ∧ o.x + o.radius < p.x - CLOUD_RADIUS * 0.2
  · rw [if_pos h]
    have := scoreVal_nonneg o.kind
    simp only []
    linarith
  · rw [if_neg h]

/-- The reverse pipeline never decreases the score. -/
theorem revPassAux_score_le (p : Player) (dt : ℝ) :
    ∀ (l : List Obstacle) (s : ℝ), s ≤ (revPassAux p dt l s).2.1 := by
  intro l
  induction l with
  | nil => intro s; exact le_rfl
  | cons o rest ih =>
      intro s
      rw [revPassAux]
      have h1 : s ≤ (scoreStep p (advanceOb o dt) s).2 := scoreStep_le p _ s
      cases hc : cullB (scoreStep p (advanceOb o dt) s).1 with
      | true =>
          simp only [hc, if_true]
          exact le_trans h1 (ih _)
      | false =>
          simp only [hc, Bool.false_eq_true, if_false]
          cases hk : collideB p (scoreStep p (advanceOb o dt) s).1 with
          | true => simpa [hk] using h1
          | false =>
              simp only [hk, Bool.false_eq_true, if_false]
              exact le_trans h1 (ih _)

/-- The obstacle pass of the tick never decreases the score. -/
theorem obstaclePass_score_le (p : Player) (dt : ℝ) (l : List Obstacle) (s : ℝ) :
    s ≤ (obstaclePass p dt l s).2.1 := by
  rw [obstaclePass_eq_revPass, revPass]
  exact revPassAux_score_le p dt l.reverse s

/-- When no collision aborts it, the reverse pipeline keeps exactly the
advanced-and-flagged obstacles that fail the cull test, and adds every
per-obstacle increment to the score. -/
theorem revPassAux_no_collision (p : Player) (dt : ℝ) :
    ∀ (l : List Obstacle) (s : ℝ), (revPassAux p dt l s).2.2 = false →
      revPassAux p dt l s =
        ((l.map (procOb p dt)).filter (fun o => !cullB o),
          s + (l.map (incOf p dt)).sum, false) := by
  intro l
  induction l with
  | nil => intro s _; simp [revPassAux]
  | cons o rest ih =>
      intro s h
      rw [revPassAux, scoreStep_eq] at h ⊢
      cases hc : cullB (procOb p dt o) with
      | true =>
          simp only [hc, if_true] at h ⊢
          rw [ih _ h]
          simp [hc]
          ring
      | false =>
          simp only [hc, Bool.false_eq_true, if_false] at h ⊢
          cases hk : collideB p (procOb p dt o) with
          | true => simp [hk] at h
          | false =>
              simp only [hk, Bool.false_eq_true, if_false] at h ⊢
              rw [ih _ h]
              simp [hc]
              ring

/-- The tick's obstacle pass, when it ends without a collision, removes
exactly the culled obstacles (in spawn order) and accumulates every
per-obstacle increment. -/
theorem obstaclePass_no_collision (p : Player) (dt : ℝ) (l : List Obstacle) (s : ℝ)
    (h : (obstaclePass p dt l s).2.2 = false) :
    obstaclePass p dt l s =
      ((l.map (procOb p dt)).filter (fun o => !cullB o),
        s + (l.map (incOf p dt)).sum, false) := by
  rw [obstaclePass_eq_revPass, revPass] at h ⊢
  simp only [] at h
  rw [revPassAux_no_collision p dt l.reverse s h]
  simp [List.filter_reverse, List.map_reverse, List.sum_reverse]

/-- When the newest obstacle of the pass survives the cull test and its
post-advance position collides, the pass stops at once: the older prefix
is returned untouched (not even advanced) and the score carries only that
obstacle's own increment. -/
theorem obstaclePass_concat_collide (p : Player) (dt : ℝ) (l : List Obstacle)
    (o : Obstacle) (s : ℝ)
    (hc : cullB (procOb p dt o) = false) (hk : collideB p (procOb p dt o) = true) :
    obstaclePass p dt (l ++ [o]) s = (l ++ [procOb p dt o], s + incOf p dt o, true) := by
  rw [obstaclePass, List.length_append, List.length_singleton, loopIdx_concat,
    scoreStep_eq]
  simp [hc, hk]

/-- The collision test, characterised without the square root. -/
theorem collideB_true_iff (p : Player) (o : Obstacle) (h : 0 ≤ o.radius) :
    collideB p o = true ↔
      (p.x - o.x) ^ 2 + (p.y - o.y) ^ 2 < (CLOUD_RADIUS + o.radius * 0.9) ^ 2 := by
  rw [collideB, decide_eq_true_eq, dist]
  have hpos : 0 < CLOUD_RADIUS + o.radius * 0.9 := by
    rw [CLOUD_RADIUS]; nlinarith
  exact Real.sqrt_lt' hpos

/-- No collision is reported at or beyond the threshold distance. -/
theorem collideB_false_of_far (p : Player) (o : Obstacle) (h0 : 0 ≤ o.radius)
    (h : (CLOUD_RADIUS + o.radius * 0.9) ^ 2 ≤ (p.x - o.x) ^ 2 + (p.y - o.y) ^ 2) :
    collideB p o = false := by
  rw [Bool.eq_false_iff]
  intro hc
  exact absurd ((collideB_true_iff p o h0).mp hc) (not_lt.mpr h)

/-- A collision is reported strictly inside the threshold distance. -/
theorem collideB_true_of_near (p : Player) (o : Obstacle) (h0 : 0 ≤ o.radius)
    (h : (p.x - o.x) ^ 2 + (p.y - o.y) ^ 2 < (CLOUD_RADIUS + o.radius * 0.9) ^ 2) :
    collideB p o = true :=
  (collideB_true_iff p o h0).mpr h

/-- A clamped value lands in the clamp interval. -/
theorem clamp_mem (lo hi x : ℝ) (h : lo ≤ hi) :
    lo ≤ max lo (min hi x) ∧ max lo (min hi x) ≤ hi :=
  ⟨le_max_left _ _, max_le h (min_le_left _ _)⟩

/-- Whatever the intent, the pointer and the delta-time, the moved player
is clamped into the field. -/
theorem movePlayer_inField (p : Player) (it : Intent) (dt : ℝ) :
    inField (movePlayer p it dt) := by
  have h1 : (20 : ℝ) ≤ 800 - 20 := by norm_num
  have h2 : (20 : ℝ) ≤ 500 - 20 := by norm_num
  simp only [movePlayer, inField, CLOUD_RADIUS, WIDTH, HEIGHT]
  exact ⟨le_max_left _ _, max_le h1 (min_le_left _ _),
    le_max_left _ _, max_le h2 (min_le_left _ _)⟩

/-- Whatever the pass produced, the state coming out of `update` carries
the moved (hence clamped) player. -/
theorem update_player (g : GameState) (dt : ℝ) (it : Intent) (rnd : Rand) :
    (update g dt it rnd).1.player = movePlayer g.player it dt := by
  rw [update]
  split <;> rfl

/-- What `update` does when its obstacle pass reports a collision: the
phase becomes `gameOver`, the floored pass score is emitted, and the pass
score is stored. -/
theorem update_collided (g : GameState) (dt : ℝ) (it : Intent) (rnd : Rand)
    (h : (obstaclePass (movePlayer g.player it dt) dt (spawnPhase g dt rnd).2.2 g.score).2.2
        = true) :
    (update g dt it rnd).1.phase = Phase.gameOver ∧
    (update g dt it rnd).2 = TickResult.collided
      ⌊(obstaclePass (movePlayer g.player it dt) dt (spawnPhase g dt rnd).2.2 g.score).2.1⌋ ∧
    (update g dt it rnd).1.score =
      (obstaclePass (movePlayer g.player it dt) dt (spawnPhase g dt rnd).2.2 g.score).2.1 ∧
    (update g dt it rnd).1.obstacles =
      (obstaclePass (movePlayer g.player it dt) dt (spawnPhase g dt rnd).2.2 g.score).1 := by
  rw [update]
  simp [h]

/-- What `update` does when its obstacle pass reports no collision. -/
theorem update_continued (g : GameState) (dt : ℝ) (it : Intent) (rnd : Rand)
    (h : (obstaclePass (movePlayer g.player it dt) dt (spawnPhase g dt rnd).2.2 g.score).2.2
        = false) :
    (update g dt it rnd).1.phase = g.phase ∧
    (update g dt it rnd).2 = TickResult.continued ∧
    (update g dt it rnd).1.score =
      (obstaclePass (movePlayer g.player it dt) dt (spawnPhase g dt rnd).2.2 g.score).2.1 := by
  rw [update]
  simp [h]

/-- The score stored by `update` is the pass score, in either branch. -/
theorem update_score (g : GameState) (dt : ℝ) (it : Intent) (rnd : Rand) :
    (update g dt it rnd).1.score =
      (obstaclePass (movePlayer g.player it dt) dt (spawnPhase g dt rnd).2.2 g.score).2.1 := by
  rw [update]
  split <;> rfl

/-- Advancing never changes the scored flag. -/
theorem advanceOb_scored (o : Obstacle) (dt : ℝ) : (advanceOb o dt).scored = o.scored := by
  cases h : o.kind <;> simp [advanceOb, h]

/-- Advancing never changes the kind. -/
theorem advanceOb_kind (o : Obstacle) (dt : ℝ) : (advanceOb o dt).kind = o.kind := by
  cases h : o.kind <;> simp [advanceOb, h]

/-- Advancing never changes the radius. -/
theorem advanceOb_radius (o : Obstacle) (dt : ℝ) : (advanceOb o dt).radius = o.radius := by
  cases h : o.kind <;> simp [advanceOb, h]

/-- Both kinds advance `x` by `-speed * dt`. -/
theorem advanceOb_x (o : Obstacle) (dt : ℝ) : (advanceOb o dt).x = o.x - o.speed * dt := by
  cases h : o.kind <;> simp [advanceOb, h]

/-- An alien advances by the drift computed from its pre-advance age, and
only then ages by `dt`. -/
theorem advanceOb_alien (o : Obstacle) (dt : ℝ) (hk : o.kind = ObKind.alien) :
    advanceOb o dt =
      { o with
        x := o.x - o.speed * dt
        y := o.y + Real.sin ((o.life * 2 + o.wobblePhase) * 2.2) * 40 * dt
        life := o.life + dt } := by
  simp [advanceOb, hk]

/-- The score-check only ever touches the scored flag. -/
theorem procOb_fields (p : Player) (dt : ℝ) (o : Obstacle) :
    (procOb p dt o).x = (advanceOb o dt).x ∧
    (procOb p dt o).y = (advanceOb o dt).y ∧
    (procOb p dt o).life = (advanceOb o dt).life ∧
    (procOb p dt o).radius = (advanceOb o dt).radius ∧
    (procOb p dt o).kind = (advanceOb o dt).kind ∧
    (procOb p dt o).speed = (advanceOb o dt).speed := by
  rw [procOb, scoreStep]
  split <;> exact ⟨rfl, rfl, rfl, rfl, rfl, rfl⟩

/-- A not-yet-scored obstacle whose post-advance position passed the
player gets its flag set. -/
theorem procOb_scored_of_pass (p : Player) (dt : ℝ) (o : Obstacle)
    (h0 : o.scored = false)
    (hpass : (advanceOb o dt).x + (advanceOb o dt).radius < p.x - CLOUD_RADIUS * 0.2) :
    (procOb p dt o).scored = true := by
  rw [procOb, scoreStep, if_pos ⟨by rw [advanceOb_scored]; exact h0, hpass⟩]

/-- A not-yet-scored obstacle whose post-advance position passed the
player contributes exactly its kind's value. -/
theorem incOf_eq_of_pass (p : Player) (dt : ℝ) (o : Obstacle)
    (h0 : o.scored = false)
    (hpass : (advanceOb o dt).x + (advanceOb o dt).radius < p.x - CLOUD_RADIUS * 0.2) :
    incOf p dt o = scoreVal o.kind := by
  rw [incOf, scoreStep, if_pos ⟨by rw [advanceOb_scored]; exact h0, hpass⟩]
  simp [advanceOb_kind]

/-- An already-scored obstacle is only advanced and contributes nothing. -/
theorem procOb_of_scored (p : Player) (dt : ℝ) (o : Obstacle) (h : o.scored = true) :
    procOb p dt o = advanceOb o dt ∧ incOf p dt o = 0 := by
  have hneg : ¬ ((advanceOb o dt).scored = false ∧
      (advanceOb o dt).x + (advanceOb o dt).radius < p.x - CLOUD_RADIUS * 0.2) := by
    rintro ⟨h1, -⟩
    rw [advanceOb_scored, h] at h1
    exact absurd h1 (by simp)
  rw [procOb, incOf, scoreStep]
  rw [if_neg hneg]
  exact ⟨rfl, rfl⟩

/-- The reverse pipeline splits over list concatenation: the newer block is
processed first; if it collides the older block rides along untouched,
otherwise the older block is processed with the accumulated score. -/
theorem revPassAux_append (p : Player) (dt : ℝ) :
    ∀ (l1 l2 : List Obstacle) (s : ℝ),
      revPassAux p dt (l1 ++ l2) s =
        (if (revPassAux p dt l1 s).2.2 then
          ((revPassAux p dt l1 s).1 ++ l2, (revPassAux p dt l1 s).2)
        else
          ((revPassAux p dt l1 s).1 ++ (revPassAux p dt l2 (revPassAux p dt l1 s).2.1).1,
            (revPassAux p dt l2 (revPassAux p dt l1 s).2.1).2)) := by
  intro l1
  induction l1 with
  | nil => intro l2 s; simp [revPassAux]
  | cons o rest ih =>
      intro l2 s
      simp only [List.cons_append, revPassAux]
      cases hc : cullB (scoreStep p (advanceOb o dt) s).1 with
      | true =>
          simp only [hc, if_true]
          exact ih l2 _
      | false =>
          simp only [hc, Bool.false_eq_true, if_false]
          cases hk : collideB p (scoreStep p (advanceOb o dt) s).1 with
          | true => simp [hk]
          | false =>
              simp only [hk, Bool.false_eq_true, if_false, List.append_eq]
              rw [ih l2]
              cases h2 : (revPassAux p dt rest (scoreStep p (advanceOb o dt) s).2).2.2 <;>
                simp [h2]

/-- An asteroid keeps its y when advanced. -/
theorem advanceOb_y_asteroid (o : Obstacle) (dt : ℝ) (h : o.kind = ObKind.asteroid) :
    (advanceOb o dt).y = o.y := by
  simp [advanceOb, h]

/-! Concrete fixtures for counterexamples and witnesses. -/

/-- With `dt = 0`, `obB` does not satisfy the pass condition. -/
theorem obB_no_pass :
    ¬ ((advanceOb obB 0).scored = false ∧
        (advanceOb obB 0).x + (advanceOb obB 0).radius < pRef.x - CLOUD_RADIUS * 0.2) := by
  rintro ⟨-, h2⟩
  rw [advanceOb_x, advanceOb_radius] at h2
  norm_num [obB, pRef, CLOUD_RADIUS] at h2

/-- With `dt = 0`, the score-check leaves `obB` as advanced. -/
theorem obB_proc : procOb pRef 0 obB = advanceOb obB 0 := by
  rw [procOb, scoreStep, if_neg obB_no_pass]

/-- With `dt = 0`, `obB` contributes no score. -/
theorem obB_inc : incOf pRef 0 obB = 0 := by
  rw [incOf, scoreStep, if_neg obB_no_pass]

/-- The asteroid `obB` is not culled. -/
theorem obB_cull : cullB (procOb pRef 0 obB) = false := by
  rw [obB_proc, cullB, decide_eq_false_iff_not, advanceOb_x, advanceOb_radius]
  norm_num [obB]

/-- The asteroid `obB` overlaps the player: distance 10 against threshold 38. -/
theorem obB_collide : collideB pRef (procOb pRef 0 obB) = true := by
  rw [obB_proc]
  apply collideB_true_of_near
  · rw [advanceOb_radius]; norm_num [obB]
  · rw [advanceOb_x, advanceOb_radius, advanceOb_y_asteroid _ _ (by norm_num [obB])]
    norm_num [obB, pRef, CLOUD_RADIUS]

/-- With `dt = 0`, `obA` satisfies the pass condition. -/
theorem obA_pass :
    (advanceOb obA 0).x + (advanceOb obA 0).radius < pRef.x - CLOUD_RADIUS * 0.2 := by
  rw [advanceOb_x, advanceOb_radius]
  norm_num [obA, pRef, CLOUD_RADIUS]

/-- The asteroid `obA` is not culled. -/
theorem obA_cull : cullB (procOb pRef 0 obA) = false := by
  rw [cullB, decide_eq_false_iff_not, (procOb_fields pRef 0 obA).1,
    (procOb_fields pRef 0 obA).2.2.2.1, advanceOb_x, advanceOb_radius]
  norm_num [obA]

/-- The asteroid `obA` does not collide: distance 40 against threshold 32.6. -/
theorem obA_no_collide : collideB pRef (procOb pRef 0 obA) = false := by
  apply collideB_false_of_far
  · rw [(procOb_fields pRef 0 obA).2.2.2.1, advanceOb_radius]; norm_num [obA]
  · rw [(procOb_fields pRef 0 obA).1, (procOb_fields pRef 0 obA).2.1,
      (procOb_fields pRef 0 obA).2.2.2.1,
      advanceOb_x, advanceOb_y_asteroid _ _ (by norm_num [obA]), advanceOb_radius]
    norm_num [obA, pRef, CLOUD_RADIUS]

/-! The claims. -/

/-- C1 (counterexample): the tick does not process obstacles in spawn
order.  With the earlier-spawned `obA` one advance short of scoring and the
later-spawned `obB` colliding, the source's loop visits `obB` first and
aborts with score 0, while a spawn-order pass would score `obA` first and
abort with score 5. -/
theorem c1_counterexample :
    (obstaclePass pRef 0 [obA, obB] 0).2.1 = 0 ∧
    (spawnOrderPass pRef 0 [obA, obB] 0).2.1 = 5 ∧
    obstaclePass pRef 0 [obA, obB] 0 ≠ spawnOrderPass pRef 0 [obA, obB] 0 := by
  have h1 : obstaclePass pRef 0 [obA, obB] 0 =
      ([obA] ++ [procOb pRef 0 obB], 0 + incOf pRef 0 obB, true) :=
    obstaclePass_concat_collide pRef 0 [obA] obB 0 obB_cull obB_collide
  have h1' : (obstaclePass pRef 0 [obA, obB] 0).2.1 = 0 := by
    rw [h1]
    simp only []
    rw [obB_inc]
    norm_num
  have hincA : incOf pRef 0 obA = 5 := by
    rw [incOf_eq_of_pass pRef 0 obA rfl obA_pass]
    norm_num [obA, scoreVal]
  have h2 : (spawnOrderPass pRef 0 [obA, obB] 0).2.1 = 5 := by
    rw [show ([obA, obB] : List Obstacle) = obA :: [obB] from rfl, spawnOrderPass,
      scoreStep_eq]
    simp only [obA_cull, obA_no_collide, Bool.false_eq_true, if_false]
    rw [spawnOrderPass, scoreStep_eq]
    simp only [obB_cull, obB_collide, if_true, Bool.false_eq_true, if_false]
    rw [hincA, obB_inc]
    norm_num
  refine ⟨h1', h2, fun heq => ?_⟩
  rw [heq, h2] at h1'
  norm_num at h1'

/-- C1 (amended): each tick processes obstacles in REVERSE spawn order
(most recently spawned first), in a single pass per obstacle performing
advance, then score-check, then cull-check, then collision-check, the
checks all using the obstacle's post-advance position within that tick;
on a collision the not-yet-visited (earlier-spawned) obstacles are
returned untouched.  Formally, the source's indexed loop equals the
reverse-spawn-order per-obstacle pipeline `revPass`. -/
theorem c1_reverse_spawn_order_single_pass (p : Player) (dt : ℝ)
    (l : List Obstacle) (s : ℝ) :
    obstaclePass p dt l s = revPass p dt l s :=
  obstaclePass_eq_revPass p dt l s

/-- C2: a not-yet-scored obstacle whose post-advance position satisfies
`x + radius < player.x - CLOUD_RADIUS*0.2` has its flag set and adds
exactly its kind's value (8 for alien, 5 for asteroid) to the score; an
already-scored obstacle is never scored again; and the score is
non-decreasing across the whole obstacle pass of a tick. -/
theorem c2_pass_scoring (p : Player) (dt s : ℝ) (o : Obstacle) (l : List Obstacle)
    (h0 : o.scored = false)
    (hpass : (advanceOb o dt).x + (advanceOb o dt).radius < p.x - CLOUD_RADIUS * 0.2) :
    (procOb p dt o).scored = true ∧
    incOf p dt o = scoreVal o.kind ∧
    scoreVal ObKind.alien = 8 ∧
    scoreVal ObKind.asteroid = 5 ∧
    (∀ o2 : Obstacle, o2.scored = true →
      procOb p dt o2 = advanceOb o2 dt ∧ incOf p dt o2 = 0) ∧
    s ≤ (obstaclePass p dt l s).2.1 :=
  ⟨procOb_scored_of_pass p dt o h0 hpass, incOf_eq_of_pass p dt o h0 hpass, rfl, rfl,
    fun o2 h => procOb_of_scored p dt o2 h, obstaclePass_score_le p dt l s⟩

/-- Witness for C2 at the concrete passing asteroid `obA`. -/
theorem c2_witness :
    (procOb pRef 0 obA).scored = true ∧
    incOf pRef 0 obA = scoreVal obA.kind ∧
    scoreVal ObKind.alien = 8 ∧
    scoreVal ObKind.asteroid = 5 ∧
    (∀ o2 : Obstacle, o2.scored = true →
      procOb pRef 0 o2 = advanceOb o2 0 ∧ incOf pRef 0 o2 = 0) ∧
    (0 : ℝ) ≤ (obstaclePass pRef 0 [] 0).2.1 :=
  c2_pass_scoring pRef 0 0 obA [] rfl obA_pass

/-- C3: the collision test fires exactly when the distance is strictly
below `CLOUD_RADIUS + 0.9 * radius`: equivalently the squared distance is
strictly below the squared threshold; at exactly the threshold no
collision is reported, strictly below it one is. -/
theorem c3_collision_threshold (p : Player) (o : Obstacle) (h : 0 ≤ o.radius) :
    (collideB p o = true ↔
      (p.x - o.x) ^ 2 + (p.y - o.y) ^ 2 < (CLOUD_RADIUS + o.radius * 0.9) ^ 2) ∧
    (dist p o = CLOUD_RADIUS + o.radius * 0.9 → collideB p o = false) ∧
    (dist p o < CLOUD_RADIUS + o.radius * 0.9 → collideB p o = true) := by
  refine ⟨collideB_true_iff p o h, fun he => ?_, fun hlt => ?_⟩
  · rw [collideB, decide_eq_false_iff_not, he]
    exact lt_irrefl _
  · rw [collideB, decide_eq_true_eq]
    exact hlt

/-- Witness for C3 at the concrete overlapping asteroid `obB`. -/
theorem c3_witness :
    (collideB pRef obB = true ↔
      (pRef.x - obB.x) ^ 2 + (pRef.y - obB.y) ^ 2 <
        (CLOUD_RADIUS + obB.radius * 0.9) ^ 2) ∧
    (dist pRef obB = CLOUD_RADIUS + obB.radius * 0.9 → collideB pRef obB = false) ∧
    (dist pRef obB < CLOUD_RADIUS + obB.radius * 0.9 → collideB pRef obB = true) :=
  c3_collision_threshold pRef obB (by norm_num [obB])

/-- C4: in every reachable state — whatever the movement intent and
pointer input each tick consumed — the player sits in
`[CLOUD_RADIUS, WIDTH-CLOUD_RADIUS] × [CLOUD_RADIUS, HEIGHT-CLOUD_RADIUS]`. -/
theorem c4_player_bounds (g : GameState) (h : Reach g) : inField g.player := by
  induction h with
  | init => norm_num [inField, initState, CLOUD_RADIUS, WIDTH, HEIGHT]
  | tickStep g dt it rnd _ ih =>
      rw [tick]
      by_cases hp : g.phase = Phase.playing
      · rw [if_pos hp, update_player]
        exact movePlayer_inField g.player it dt
      · rw [if_neg hp]
        exact ih
  | restartStep g _ ih => norm_num [inField, restartOp, CLOUD_RADIUS, WIDTH, HEIGHT]
  | startStep g _ ih =>
      norm_num [inField, startGameOp, restartOp, CLOUD_RADIUS, WIDTH, HEIGHT]
  | diffStep g d _ ih =>
      rw [setDifficultyOp]
      split
      · exact ih
      · exact ih

/-- Witness for C4 at the initial state. -/
theorem c4_witness : inField initState.player :=
  c4_player_bounds initState Reach.init

/-- C5: the spawn thresholds are `max(base*0.55, base - score*3.5)` and
`max(base*0.60, base - score*3.8)` over the stated base tables; they never
drop below their floors and are non-increasing as the score grows. -/
theorem c5_spawn_intervals (d : Difficulty) (s1 s2 : ℝ) (h0 : 0 ≤ s1) (h12 : s1 ≤ s2) :
    astIntervalOf d s1 = max (baseAst d * 0.55) (baseAst d - s1 * 3.5) ∧
    aliIntervalOf d s1 = max (baseAli d * 0.6) (baseAli d - s1 * 3.8) ∧
    baseAst Difficulty.hard = 520 ∧ baseAst Difficulty.medium = 700 ∧
    baseAst Difficulty.easy = 900 ∧
    baseAli Difficulty.hard = 800 ∧ baseAli Difficulty.medium = 1100 ∧
    baseAli Difficulty.easy = 1400 ∧
    baseAst d * 0.55 ≤ astIntervalOf d s1 ∧
    baseAli d * 0.6 ≤ aliIntervalOf d s1 ∧
    astIntervalOf d s2 ≤ astIntervalOf d s1 ∧
    aliIntervalOf d s2 ≤ aliIntervalOf d s1 := by
  refine ⟨rfl, rfl, rfl, rfl, rfl, rfl, rfl, rfl, le_max_left _ _, le_max_left _ _, ?_, ?_⟩
  · exact max_le_max le_rfl (by nlinarith)
  · exact max_le_max le_rfl (by nlinarith)

/-- C6 (counterexample): the source computes the drift from the
pre-advance age.  For a fresh alien (`life = 0`, `wobblePhase = 0`) and
`dt = 1/2` the source adds `sin 0 = 0` and keeps `y = 100`, while the
specification's order would add `sin 2.2 * 20 ≠ 0`. -/
theorem c6_counterexample :
    (advanceOb obC (1 / 2)).y = 100 ∧ (specAdvanceAlien obC (1 / 2)).y ≠ 100 := by
  constructor
  · rw [advanceOb_alien obC (1 / 2) rfl]
    simp [obC]
  · have hpos : 0 < Real.sin (((obC.life + 1 / 2) * 2 + obC.wobblePhase) * 2.2) := by
      rw [show ((obC.life + 1 / 2) * 2 + obC.wobblePhase) * 2.2 = (2.2 : ℝ) by
        norm_num [obC]]
      exact Real.sin_pos_of_pos_of_lt_pi (by norm_num)
        (lt_trans (by norm_num) Real.pi_gt_three)
    intro h
    simp only [specAdvanceAlien] at h
    rw [show obC.y = (100 : ℝ) from rfl] at h
    nlinarith [hpos]

/-- C6 (amended): each tick, an alien advances and then — computing the
drift from the PRE-advance age — accumulates
`y += sin((age*2 + wobblePhase) * 2.2) * 40 * dt`, after which
`age += dt`; through the whole tick pass the surviving alien carries
exactly these post-advance fields. -/
theorem c6_alien_drift (p : Player) (dt s : ℝ) (o : Obstacle)
    (hk : o.kind = ObKind.alien)
    (hc : cullB (procOb p dt o) = false)
    (hcol : collideB p (procOb p dt o) = false) :
    obstaclePass p dt [o] s = ([procOb p dt o], s + incOf p dt o, false) ∧
    (procOb p dt o).x = o.x - o.speed * dt ∧
    (procOb p dt o).y = o.y + Real.sin ((o.life * 2 + o.wobblePhase) * 2.2) * 40 * dt ∧
    (procOb p dt o).life = o.life + dt := by
  refine ⟨?_, ?_, ?_, ?_⟩
  · rw [obstaclePass_eq_revPass, revPass]
    simp only [List.reverse_singleton]
    rw [revPassAux, scoreStep_eq]
    simp only [hc, hcol, Bool.false_eq_true, if_false]
    rw [revPassAux]
    simp
  · rw [(procOb_fields p dt o).1, advanceOb_alien o dt hk]
  · rw [(procOb_fields p dt o).2.1, advanceOb_alien o dt hk]
  · rw [(procOb_fields p dt o).2.2.1, advanceOb_alien o dt hk]

/-- The alien `obW` is not culled. -/
theorem obW_cull : cullB (procOb pRef (1 / 2) obW) = false := by
  rw [cullB, decide_eq_false_iff_not, (procOb_fields pRef (1 / 2) obW).1,
    (procOb_fields pRef (1 / 2) obW).2.2.2.1, advanceOb_x, advanceOb_radius]
  norm_num [obW]

/-- The alien `obW` does not collide: it is 480 units ahead of the player. -/
theorem obW_no_collide : collideB pRef (procOb pRef (1 / 2) obW) = false := by
  apply collideB_false_of_far
  · rw [(procOb_fields pRef (1 / 2) obW).2.2.2.1, advanceOb_radius]
    norm_num [obW]
  · rw [(procOb_fields pRef (1 / 2) obW).1, (procOb_fields pRef (1 / 2) obW).2.1,
      (procOb_fields pRef (1 / 2) obW).2.2.2.1,
      advanceOb_x, advanceOb_radius, advanceOb_alien obW (1 / 2) rfl]
    norm_num [obW, pRef, CLOUD_RADIUS]

/-- Witness for C6 on the concrete alien `obW` with `dt = 1/2`. -/
theorem c6_witness :
    obstaclePass pRef (1 / 2) [obW] 0 =
      ([procOb pRef (1 / 2) obW], 0 + incOf pRef (1 / 2) obW, false) ∧
    (procOb pRef (1 / 2) obW).x = obW.x - obW.speed * (1 / 2) ∧
    (procOb pRef (1 / 2) obW).y =
      obW.y + Real.sin ((obW.life * 2 + obW.wobblePhase) * 2.2) * 40 * (1 / 2) ∧
    (procOb pRef (1 / 2) obW).life = obW.life + 1 / 2 :=
  c6_alien_drift pRef (1 / 2) 0 obW rfl obW_cull obW_no_collide

/-- Witness for C5 on easy difficulty with scores 0 and 40. -/
theorem c5_witness :
    astIntervalOf Difficulty.easy 0 =
      max (baseAst Difficulty.easy * 0.55) (baseAst Difficulty.easy - 0 * 3.5) ∧
    aliIntervalOf Difficulty.easy 0 =
      max (baseAli Difficulty.easy * 0.6) (baseAli Difficulty.easy - 0 * 3.8) ∧
    baseAst Difficulty.hard = 520 ∧ baseAst Difficulty.medium = 700 ∧
    baseAst Difficulty.easy = 900 ∧
    baseAli Difficulty.hard = 800 ∧ baseAli Difficulty.medium = 1100 ∧
    baseAli Difficulty.easy = 1400 ∧
    baseAst Difficulty.easy * 0.55 ≤ astIntervalOf Difficulty.easy 0 ∧
    baseAli Difficulty.easy * 0.6 ≤ aliIntervalOf Difficulty.easy 0 ∧
    astIntervalOf Difficulty.easy 40 ≤ astIntervalOf Difficulty.easy 0 ∧
    aliIntervalOf Difficulty.easy 40 ≤ aliIntervalOf Difficulty.easy 0 :=
  c5_spawn_intervals Difficulty.easy 0 40 (by norm_num) (by norm_num)

/-- C7: ticks outside the Playing phase are no-ops; the first collision
found in the pass stops the pass at once, with every not-yet-visited
(earlier-spawned) obstacle returned untouched; and a collided tick moves
the phase to gameOver and emits the floored final score. -/
theorem c7_collision_ends_round :
    (∀ (g : GameState) (dt : ℝ) (it : Intent) (rnd : Rand),
      g.phase ≠ Phase.playing → tick g dt it rnd = (g, TickResult.continued)) ∧
    (∀ (p : Player) (dt s : ℝ) (lOld lNew : List Obstacle) (o : Obstacle),
      (revPassAux p dt lNew.reverse s).2.2 = false →
      cullB (procOb p dt o) = false →
      collideB p (procOb p dt o) = true →
      obstaclePass p dt (lOld ++ o :: lNew) s =
        (lOld ++ procOb p dt o :: (revPassAux p dt lNew.reverse s).1.reverse,
          (revPassAux p dt lNew.reverse s).2.1 + incOf p dt o, true)) ∧
    (∀ (g : GameState) (dt : ℝ) (it : Intent) (rnd : Rand),
      g.phase = Phase.playing →
      (obstaclePass (movePlayer g.player it dt) dt (spawnPhase g dt rnd).2.2 g.score).2.2
          = true →
      (tick g dt it rnd).1.phase = Phase.gameOver ∧
      (tick g dt it rnd).2 = TickResult.collided
        ⌊(obstaclePass (movePlayer g.player it dt) dt
            (spawnPhase g dt rnd).2.2 g.score).2.1⌋) := by
  refine ⟨fun g dt it rnd h => by rw [tick, if_neg h],
    fun p dt s lOld lNew o h1 hc hk => ?_,
    fun g dt it rnd hp hcol => ?_⟩
  · rw [obstaclePass_eq_revPass, revPass,
      show (lOld ++ o :: lNew).reverse = lNew.reverse ++ ([o] ++ lOld.reverse) by
        simp [List.reverse_append],
      revPassAux_append]
    simp only [h1, Bool.false_eq_true, if_false]
    rw [List.singleton_append, revPassAux, scoreStep_eq]
    simp only [hc, hk, if_true, Bool.false_eq_true, if_false]
    simp [List.reverse_append]
  · have hu := update_collided g dt it rnd hcol
    rw [tick, if_pos hp]
    exact ⟨hu.1, hu.2.1⟩

/-- An idle zero-dt tick leaves the player of `gB` in place. -/
theorem gB_move : movePlayer gB.player it0 0 = pRef := by
  simp only [movePlayer, gB, it0, CLOUD_RADIUS, WIDTH, HEIGHT]
  norm_num [pRef, min_def, max_def]

/-- A zero-dt tick of `gB` spawns nothing. -/
theorem gB_spawn : spawnPhase gB 0 rnd0 = (0, 0, [obB]) := by
  rw [spawnPhase]
  norm_num [gB, astIntervalOf, aliIntervalOf, baseAst, baseAli, max_def]

/-- The obstacle pass of the `gB` tick: `obB` collides at once. -/
theorem gB_pass :
    obstaclePass (movePlayer gB.player it0 0) 0 (spawnPhase gB 0 rnd0).2.2 gB.score =
      ([] ++ [procOb pRef 0 obB], 0 + incOf pRef 0 obB, true) := by
  rw [gB_move, gB_spawn]
  exact obstaclePass_concat_collide pRef 0 [] obB 0 obB_cull obB_collide

/-- C8 (counterexample): the obstacle that triggers game-over is NOT
removed from the live collection: the collided tick of `gB` still carries
it. -/
theorem c8_counterexample :
    (update gB 0 it0 rnd0).2 = TickResult.collided 0 ∧
    (update gB 0 it0 rnd0).1.obstacles ≠ [] := by
  have hflag : (obstaclePass (movePlayer gB.player it0 0) 0
      (spawnPhase gB 0 rnd0).2.2 gB.score).2.2 = true := by rw [gB_pass]
  have hu := update_collided gB 0 it0 rnd0 hflag
  constructor
  · rw [hu.2.1, gB_pass]
    simp [obB_inc]
  · rw [hu.2.2.2, gB_pass]
    simp

/-- C8 (amended): a pass that completes without collision removes exactly
the obstacles whose post-advance position satisfies `x < -radius*2` (and
removal does not touch the score: the pass score is the sum of the pass
increments, the culled obstacles' included); when an obstacle collides the
tick stops with it still in the collection; the collection is cleared on
round reset. -/
theorem c8_cull_removal (p : Player) (dt : ℝ) (l : List Obstacle) (s : ℝ) (g : GameState)
    (h : (obstaclePass p dt l s).2.2 = false) :
    (obstaclePass p dt l s).1 = (l.map (procOb p dt)).filter (fun o => !cullB o) ∧
    (obstaclePass p dt l s).2.1 = s + (l.map (incOf p dt)).sum ∧
    (∀ (o : Obstacle) (lOld : List Obstacle),
      cullB (procOb p dt o) = false → collideB p (procOb p dt o) = true →
      (obstaclePass p dt (lOld ++ [o]) s).1 = lOld ++ [procOb p dt o]) ∧
    (restartOp g).obstacles = [] ∧
    (startGameOp g).obstacles = [] := by
  refine ⟨?_, ?_, fun o lOld hc hk => ?_, rfl, rfl⟩
  · rw [obstaclePass_no_collision p dt l s h]
  · rw [obstaclePass_no_collision p dt l s h]
  · rw [obstaclePass_concat_collide p dt lOld o s hc hk]

/-- The full pass over the single passing asteroid `obA` completes without
collision. -/
theorem obA_pass_result :
    obstaclePass pRef 0 [obA] 0 = ([procOb pRef 0 obA], 0 + incOf pRef 0 obA, false) := by
  rw [obstaclePass_eq_revPass, revPass]
  simp only [List.reverse_singleton]
  rw [revPassAux, scoreStep_eq]
  simp only [obA_cull, obA_no_collide, Bool.false_eq_true, if_false]
  rw [revPassAux]
  simp

/-- Witness for C8 on the completed pass over `obA`. -/
theorem c8_witness :
    (obstaclePass pRef 0 [obA] 0).1 =
      (([obA].map (procOb pRef 0)).filter (fun o => !cullB o)) ∧
    (obstaclePass pRef 0 [obA] 0).2.1 = 0 + ([obA].map (incOf pRef 0)).sum ∧
    (∀ (o : Obstacle) (lOld : List Obstacle),
      cullB (procOb pRef 0 o) = false → collideB pRef (procOb pRef 0 o) = true →
      (obstaclePass pRef 0 (lOld ++ [o]) 0).1 = lOld ++ [procOb pRef 0 o]) ∧
    (restartOp initState).obstacles = [] ∧
    (startGameOp initState).obstacles = [] :=
  c8_cull_removal pRef 0 [obA] 0 initState (by rw [obA_pass_result])

/-- C9 (amended): the difficulty buttons live on the menu overlay, which
the source shows whenever `gameState === 'menu'` — the Menu AND GameOver
phases; so the setter takes effect in both, cannot fire while Playing, and
the value survives `restart()` and `startGame()`. -/
theorem c9_difficulty_setting (g : GameState) (d : Difficulty) :
    (g.phase ≠ Phase.playing → (setDifficultyOp g d).difficulty = d) ∧
    (g.phase = Phase.playing → setDifficultyOp g d = g) ∧
    (restartOp g).difficulty = g.difficulty ∧
    (startGameOp g).difficulty = g.difficulty := by
  refine ⟨fun h => ?_, fun h => ?_, rfl, rfl⟩
  · rw [setDifficultyOp, if_neg h]
  · rw [setDifficultyOp, if_pos h]

/-- C9 (counterexample): in the gameOver phase — not Menu — the setter is
NOT ignored: it changes the difficulty. -/
theorem c9_counterexample :
    gOver.phase ≠ Phase.menu ∧
    gOver.difficulty = Difficulty.easy ∧
    (setDifficultyOp gOver Difficulty.hard).difficulty = Difficulty.hard ∧
    setDifficultyOp gOver Difficulty.hard ≠ gOver := by
  refine ⟨by simp [gOver, initState], rfl, by simp [setDifficultyOp, gOver, initState], ?_⟩
  intro h
  have : (setDifficultyOp gOver Difficulty.hard).difficulty = gOver.difficulty := by rw [h]
  rw [show (setDifficultyOp gOver Difficulty.hard).difficulty = Difficulty.hard by
    simp [setDifficultyOp, gOver, initState]] at this
  exact absurd this.symm (by simp [gOver, initState])

/-- With `dt = 0`, `obD` satisfies the pass condition. -/
theorem obD_pass :
    (advanceOb obD 0).x + (advanceOb obD 0).radius < pRef.x - CLOUD_RADIUS * 0.2 := by
  rw [advanceOb_x, advanceOb_radius]
  norm_num [obD, pRef, CLOUD_RADIUS]

/-- The asteroid `obD` is not culled. -/
theorem obD_cull : cullB (procOb pRef 0 obD) = false := by
  rw [cullB, decide_eq_false_iff_not, (procOb_fields pRef 0 obD).1,
    (procOb_fields pRef 0 obD).2.2.2.1, advanceOb_x, advanceOb_radius]
  norm_num [obD]

/-- The asteroid `obD` collides: distance 30 against threshold 38. -/
theorem obD_collide : collideB pRef (procOb pRef 0 obD) = true := by
  apply collideB_true_of_near
  · rw [(procOb_fields pRef 0 obD).2.2.2.1, advanceOb_radius]
    norm_num [obD]
  · rw [(procOb_fields pRef 0 obD).1, (procOb_fields pRef 0 obD).2.1,
      (procOb_fields pRef 0 obD).2.2.2.1,
      advanceOb_x, advanceOb_y_asteroid _ _ (by norm_num [obD]), advanceOb_radius]
    norm_num [obD, pRef, CLOUD_RADIUS]

/-- C10: when an obstacle both pass-scores and collides in the same tick,
the score increment lands before the collision check, and the Collided
result carries the floored final score including that very increment. -/
theorem c10_score_before_collision (p : Player) (dt s : ℝ) (l : List Obstacle)
    (o : Obstacle)
    (h0 : o.scored = false)
    (hpass : (advanceOb o dt).x + (advanceOb o dt).radius < p.x - CLOUD_RADIUS * 0.2)
    (hc : cullB (procOb p dt o) = false)
    (hk : collideB p (procOb p dt o) = true) :
    obstaclePass p dt (l ++ [o]) s = (l ++ [procOb p dt o], s + scoreVal o.kind, true) ∧
    (procOb p dt o).scored = true ∧
    (∀ (g : GameState) (it : Intent) (rnd : Rand),
      g.phase = Phase.playing →
      movePlayer g.player it dt = p →
      (spawnPhase g dt rnd).2.2 = l ++ [o] →
      g.score = s →
      (tick g dt it rnd).2 = TickResult.collided ⌊s + scoreVal o.kind⌋) := by
  have hmain : obstaclePass p dt (l ++ [o]) s =
      (l ++ [procOb p dt o], s + scoreVal o.kind, true) := by
    rw [obstaclePass_concat_collide p dt l o s hc hk, incOf_eq_of_pass p dt o h0 hpass]
  refine ⟨hmain, procOb_scored_of_pass p dt o h0 hpass, fun g it rnd hp hm hsp hsc => ?_⟩
  have hflag : (obstaclePass (movePlayer g.player it dt) dt
      (spawnPhase g dt rnd).2.2 g.score).2.2 = true := by
    rw [hm, hsp, hsc, hmain]
  have hu := update_collided g dt it rnd hflag
  rw [tick, if_pos hp, hu.2.1]
  congr 1
  rw [hm, hsp, hsc, hmain]

/-- Witness for C10 on the concrete asteroid `obD`. -/
theorem c10_witness :
    obstaclePass pRef 0 ([] ++ [obD]) 0 =
      ([] ++ [procOb pRef 0 obD], 0 + scoreVal obD.kind, true) ∧
    (procOb pRef 0 obD).scored = true ∧
    (∀ (g : GameState) (it : Intent) (rnd : Rand),
      g.phase = Phase.playing →
      movePlayer g.player it 0 = pRef →
      (spawnPhase g 0 rnd).2.2 = [] ++ [obD] →
      g.score = 0 →
      (tick g 0 it rnd).2 = TickResult.collided ⌊(0 : ℝ) + scoreVal obD.kind⌋) :=
  c10_score_before_collision pRef 0 0 [] obD rfl obD_pass obD_cull obD_collide

end CloudRacing
